import Mathlib

/-!
Verification of the continuous-deployment decision logic in
`src/pipelines/continuous_deployment/continuous_deployment_dag.py`.

The Python functions are shallowly embedded: each collaborator takes the
outcome of its I/O action (an `Except` value standing for the HTTP response
or registry lookup, with `.error` standing for a raised exception) and the
pure logic of the function body is translated directly.  Python `datetime`
values are modelled by `PyDatetime`: a wall-clock reading in microseconds
together with an optional UTC offset (`none` models a timezone-naive
datetime, `some o` a timezone-aware one).  Python raises `TypeError` when a
naive and an aware datetime are compared, which `pyGt` reflects by returning
`Except.error`.
-/

namespace ContinuousDeployment

/-- Health of the serving API, as the spec's `HealthStatus` enumeration:
`Reachable` is a 200 response from the health endpoint, anything else
(non-200 or a network exception) is `Unreachable`. -/
inductive HealthStatus where
  | Reachable
  | Unreachable
  deriving DecidableEq, Repr

/-- The spec's `Decision` enumeration. -/
inductive Decision where
  | DeployNewModel
  | SkipDeployment
  deriving DecidableEq, Repr

/-- Model of a Python `datetime`: `ticks` is the wall-clock reading in
microseconds since 1970-01-01 (ignoring any offset), `tzoff` is the
`tzinfo` UTC offset in microseconds (`none` means timezone-naive). -/
structure PyDatetime where
  ticks : Int
  tzoff : Option Int
  deriving DecidableEq, Repr

/-- A timezone-naive datetime at a given instant. -/
def mkNaive (x : Int) : PyDatetime := ⟨x, none⟩

/-- Python `>` on two datetimes: naive values compare by wall clock, aware
values compare after subtracting their offsets, and mixing a naive with an
aware value raises `TypeError` (modelled as `Except.error`). -/
def pyGt (a b : PyDatetime) : Except String Bool :=
  match a.tzoff, b.tzoff with
  | none, none => Except.ok (decide (a.ticks > b.ticks))
  | some oa, some ob => Except.ok (decide (a.ticks - oa > b.ticks - ob))
  | _, _ => Except.error "TypeError: cannot compare offset-naive and offset-aware datetimes"

/-- A value passed between tasks over XCom: either a Python string or a
list of strings (the two shapes `get_branch_by_api_status` can return). -/
inductive PyXcom where
  | str (s : String)
  | strList (l : List String)
  deriving DecidableEq, Repr

/-- Digit characters to a number: read exactly `n` digits from the front,
returning the value and the rest. -/
def readDigitsExact : Nat → Nat → List Char → Option (Nat × List Char)
  | 0, acc, cs => some (acc, cs)
  | n + 1, acc, cs =>
    match cs with
    | [] => none
    | c :: rest =>
      if c.isDigit then readDigitsExact n (acc * 10 + (c.toNat - 48)) rest
      else none

/-- Read up to `n` leading digits, returning the value, how many digits
were read and the rest. -/
def readDigitsUpTo : Nat → Nat → Nat → List Char → Nat × Nat × List Char
  | 0, acc, k, cs => (acc, k, cs)
  | n + 1, acc, k, cs =>
    match cs with
    | [] => (acc, k, cs)
    | c :: rest =>
      if c.isDigit then readDigitsUpTo n (acc * 10 + (c.toNat - 48)) (k + 1) rest
      else (acc, k, cs)

/-- Consume one expected literal character. -/
def expectChar (c : Char) : List Char → Option (List Char)
  | [] => none
  | x :: rest => if x = c then some rest else none

/-- Calendar fields parsed out of a timestamp string. -/
structure DtFields where
  year : Nat
  month : Nat
  day : Nat
  hour : Nat
  minute : Nat
  second : Nat
  micro : Nat
  deriving DecidableEq, Repr

/-- Parse `YYYY-MM-DDTHH:MM:SS.fZ` (fraction of 1 to 6 digits, padded to
microseconds as Python's `%f` does), requiring the whole string to be
consumed. -/
def parseDtFields (s : String) : Option DtFields :=
  match readDigitsExact 4 0 s.toList with
  | none => none
  | some (y, r1) =>
    match expectChar '-' r1 with
    | none => none
    | some r2 =>
      match readDigitsExact 2 0 r2 with
      | none => none
      | some (mo, r3) =>
        match expectChar '-' r3 with
        | none => none
        | some r4 =>
          match readDigitsExact 2 0 r4 with
          | none => none
          | some (d, r5) =>
            match expectChar 'T' r5 with
            | none => none
            | some r6 =>
              match readDigitsExact 2 0 r6 with
              | none => none
              | some (h, r7) =>
                match expectChar ':' r7 with
                | none => none
                | some r8 =>
                  match readDigitsExact 2 0 r8 with
                  | none => none
                  | some (mi, r9) =>
                    match expectChar ':' r9 with
                    | none => none
                    | some r10 =>
                      match readDigitsExact 2 0 r10 with
                      | none => none
                      | some (sec, r11) =>
                        match expectChar '.' r11 with
                        | none => none
                        | some r12 =>
                          match readDigitsUpTo 6 0 0 r12 with
                          | (frac, k, r13) =>
                            if k = 0 then none
                            else
                              match expectChar 'Z' r13 with
                              | none => none
                              | some r14 =>
                                if r14 = [] then
                                  some ⟨y, mo, d, h, mi, sec, frac * 10 ^ (6 - k)⟩
                                else none

/-- Days in a month of the proleptic Gregorian calendar, as Python's
`datetime` constructor validates them. -/
def daysInMonth (y m : Nat) : Nat :=
  if m = 2 then
    if y % 4 = 0 ∧ (y % 100 ≠ 0 ∨ y % 400 = 0) then 29 else 28
  else if m = 4 ∨ m = 6 ∨ m = 9 ∨ m = 11 then 30
  else 31

/-- The range checks Python's `datetime` constructor performs. -/
def validFields (f : DtFields) : Prop :=
  1 ≤ f.year ∧ f.year ≤ 9999 ∧ 1 ≤ f.month ∧ f.month ≤ 12 ∧
    1 ≤ f.day ∧ f.day ≤ daysInMonth f.year f.month ∧
    f.hour ≤ 23 ∧ f.minute ≤ 59 ∧ f.second ≤ 59

instance : DecidablePred validFields := fun f => by
  unfold validFields; infer_instance

/-- Days from 1970-01-01 to the given civil date (proleptic Gregorian). -/
def daysFromCivil (y m d : Int) : Int :=
  let y' := if m ≤ 2 then y - 1 else y
  let era := (if 0 ≤ y' then y' else y' - 399) / 400
  let yoe := y' - era * 400
  let mp := if 2 < m then m - 3 else m + 9
  let doy := (153 * mp + 2) / 5 + d - 1
  let doe := yoe * 365 + yoe / 4 - yoe / 100 + doy
  era * 146097 + doe - 719468

/-- Microseconds since 1970-01-01 for validated calendar fields. -/
def fieldsToTicks (f : DtFields) : Int :=
  daysFromCivil f.year f.month f.day * 86400000000 +
    f.hour * 3600000000 + f.minute * 60000000 + f.second * 1000000 + f.micro

/-- `datetime.strptime(s, "%Y-%m-%dT%H:%M:%S.%fZ")`: parse the fixed naive
format and validate ranges; failure models the raised `ValueError`.  The
format string carries no offset directive, so a successful parse is always
timezone-naive. -/
def strptimeNaiveFmt (s : String) : Option PyDatetime :=
  match parseDtFields s with
  | none => none
  | some f => if validFields f then some ⟨fieldsToTicks f, none⟩ else none

/-- `get_branch_by_api_status`: probe `GET /healthz`.  The argument is the
outcome of `requests.get` — `.error` models a raised exception.  A 200
response selects the two timestamp-fetching tasks; any other status or any
exception returns the string `"deploy_new_model"`. -/
def get_branch_by_api_status (resp : Except String Nat) : PyXcom :=
  match resp with
  | Except.error _ => PyXcom.str "deploy_new_model"
  | Except.ok status =>
    if status = 200 then
      PyXcom.strList
        ["get_deployed_model_creation_time", "get_latest_trained_model_creation_time"]
    else PyXcom.str "deploy_new_model"

/-- The health status a probe outcome denotes, per the spec: 200 is
`Reachable`, anything else (non-200 or exception) is `Unreachable`. -/
def probeHealth (resp : Except String Nat) : HealthStatus :=
  match resp with
  | Except.ok 200 => HealthStatus.Reachable
  | _ => HealthStatus.Unreachable

/-- `get_deployed_model_creation_time`: the argument is the outcome of
`requests.post` on `/metadata` — status code and the optional
`creation_time` field of the JSON body (`none` when the field is missing,
which makes `strptime` raise `TypeError`).  Every exception in the `try`
body — network, missing field, parse failure — is caught and mapped to
`None`; a non-200 status also returns `None`. -/
def get_deployed_model_creation_time
    (resp : Except String (Nat × Option String)) : Option PyDatetime :=
  match resp with
  | Except.error _ => none
  | Except.ok (status, body) =>
    if status = 200 then
      match body with
      | none => none
      | some s => strptimeNaiveFmt s
    else none

/-- `get_latest_trained_model_creation_time`: the argument is the outcome of
`bentoml.models.get("credit_score_classifier:latest")`, whose `.error` case
models any raised lookup exception (caught and mapped to `None`).  On
success, the model's `creation_time` has its `tzinfo` replaced by `None`
before being returned. -/
def get_latest_trained_model_creation_time
    (r : Except String PyDatetime) : Option PyDatetime :=
  match r with
  | Except.error _ => none
  | Except.ok d => some { d with tzoff := none }

/-- `decide_model_update`: its three XCom pulls become arguments.  If the
branch task returned the string `"deploy_new_model"`, deploy; if no deployed
timestamp, deploy; if a trained timestamp exists and is strictly newer than
the deployed one, deploy; otherwise skip.  The Python `>` on datetimes can
raise, which propagates out of the function (`Except.error`). -/
def decide_model_update (api_status : PyXcom)
    (deployed trained : Option PyDatetime) : Except String String :=
  if api_status = PyXcom.str "deploy_new_model" then Except.ok "deploy_new_model"
  else
    match deployed with
    | none => Except.ok "deploy_new_model"
    | some d =>
      match trained with
      | none => Except.ok "skip_deployment"
      | some t =>
        match pyGt t d with
        | Except.error e => Except.error e
        | Except.ok b =>
          if b then Except.ok "deploy_new_model" else Except.ok "skip_deployment"

/-- The XCom value `get_branch_by_api_status` hands to `decide_model_update`
for each health status: the task-id list when reachable, the string
`"deploy_new_model"` when unreachable. -/
def healthToBranch : HealthStatus → PyXcom
  | HealthStatus.Reachable =>
    PyXcom.strList
      ["get_deployed_model_creation_time", "get_latest_trained_model_creation_time"]
  | HealthStatus.Unreachable => PyXcom.str "deploy_new_model"

/-- The task-id string the code uses to render each `Decision`. -/
def decisionToTaskId : Decision → String
  | Decision.DeployNewModel => "deploy_new_model"
  | Decision.SkipDeployment => "skip_deployment"

/-- Modelled from the spec: the `Evaluate` operation of §4.1, written
exactly as the spec's four-step case analysis over a health status and two
optional (naive) timestamps, for comparison against `decide_model_update`. -/
def Evaluate (health : HealthStatus) (deployed trained : Option Int) : Decision :=
  match health with
  | HealthStatus.Unreachable => Decision.DeployNewModel
  | HealthStatus.Reachable =>
    match deployed with
    | none => Decision.DeployNewModel
    | some d =>
      match trained with
      | some t => if t > d then Decision.DeployNewModel else Decision.SkipDeployment
      | none => Decision.SkipDeployment

/-- Claim C1: for every health status and every pair of optional (naive)
timestamps, `decide_model_update` follows exactly the spec's case analysis —
Unreachable deploys, absent deployed deploys, a strictly newer trained
timestamp deploys, and everything else skips — i.e. it returns the task id
of `Evaluate`'s decision. -/
theorem c1_decide_matches_spec_case_analysis (h : HealthStatus) (d t : Option Int) :
    decide_model_update (healthToBranch h) (d.map mkNaive) (t.map mkNaive)
      = Except.ok (decisionToTaskId (Evaluate h d t)) := by
  cases h <;> rcases d with _ | a <;> rcases t with _ | b <;>
    simp [decide_model_update, healthToBranch, Evaluate, decisionToTaskId, mkNaive, pyGt]
  by_cases hab : a < b <;> simp [hab, decisionToTaskId]

/-- Claim C4: when health is Unreachable the evaluator returns
`"deploy_new_model"` no matter what the two timestamps are — even aware or
mixed ones, since the branch string short-circuits the comparison. -/
theorem c4_unreachable_always_deploys (d t : Option PyDatetime) :
    decide_model_update (healthToBranch HealthStatus.Unreachable) d t
      = Except.ok "deploy_new_model" := rfl

/-- Claim C5: when health is Reachable and the deployed timestamp is absent
the evaluator returns `"deploy_new_model"` whatever the trained timestamp is. -/
theorem c5_reachable_absent_deployed_deploys (t : Option PyDatetime) :
    decide_model_update (healthToBranch HealthStatus.Reachable) none t
      = Except.ok "deploy_new_model" := by
  simp [decide_model_update, healthToBranch]

/-- Claim C6: when health is Reachable, the deployed timestamp is present,
and the trained timestamp is absent or less than or equal to it (equality
included, the staleness test being a strict greater-than), the evaluator
returns `"skip_deployment"`. -/
theorem c6_not_strictly_newer_skips (T1 : Int) (t : Option Int)
    (ht : t = none ∨ ∃ T2, t = some T2 ∧ T2 ≤ T1) :
    decide_model_update (healthToBranch HealthStatus.Reachable)
        (some (mkNaive T1)) (t.map mkNaive)
      = Except.ok "skip_deployment" := by
  rcases ht with rfl | ⟨T2, rfl, hle⟩
  · simp [decide_model_update, healthToBranch]
  · simp [decide_model_update, healthToBranch, mkNaive, pyGt]
    omega

/-- Concrete instance of C6 at equal timestamps. -/
theorem c6_not_strictly_newer_skips_witness :
    decide_model_update (healthToBranch HealthStatus.Reachable)
        (some (mkNaive 1)) ((some (1 : Int)).map mkNaive)
      = Except.ok "skip_deployment" :=
  c6_not_strictly_newer_skips 1 (some 1) (Or.inr ⟨1, rfl, le_refl 1⟩)

/-- Claim C2 is false on the code: with health Reachable, an absent deployed
timestamp and a present trained one, the evaluator deploys, but with the two
arguments swapped it skips. -/
theorem c2_commutativity_counterexample :
    decide_model_update (healthToBranch HealthStatus.Reachable)
        ((none : Option Int).map mkNaive) ((some (0 : Int)).map mkNaive)
      ≠ decide_model_update (healthToBranch HealthStatus.Reachable)
        ((some (0 : Int)).map mkNaive) ((none : Option Int).map mkNaive) := by
  simp [decide_model_update, healthToBranch, mkNaive]

/-- Claim C2 (amended): the evaluator is not commutative over its two
timestamp arguments in general; swapping them preserves the result exactly
when health is Unreachable or the two optional timestamps are equal. -/
theorem c2_commutative_iff_unreachable_or_equal (h : HealthStatus) (d t : Option Int) :
    (decide_model_update (healthToBranch h) (d.map mkNaive) (t.map mkNaive)
        = decide_model_update (healthToBranch h) (t.map mkNaive) (d.map mkNaive))
      ↔ (h = HealthStatus.Unreachable ∨ d = t) := by
  cases h <;> rcases d with _ | a <;> rcases t with _ | b <;>
    simp [decide_model_update, healthToBranch, mkNaive, pyGt]
  rcases lt_trichotomy a b with hab | hab | hab
  · simp [hab, lt_asymm hab]
    omega
  · simp [hab]
  · simp [hab, lt_asymm hab]
    omega

/-- Claim C3: the evaluator returns `"skip_deployment"` only when health is
Reachable, the deployed timestamp is present and the trained timestamp is
not strictly newer than it; and an absent deployed timestamp, a strictly
newer trained timestamp, or Unreachable health each force
`"deploy_new_model"`. -/
theorem c3_skip_only_when_fresh (h : HealthStatus) (d t : Option Int) :
    (decide_model_update (healthToBranch h) (d.map mkNaive) (t.map mkNaive)
        = Except.ok "skip_deployment" →
      h = HealthStatus.Reachable ∧ d.isSome ∧
        ¬ ∃ a b, d = some a ∧ t = some b ∧ a < b) ∧
    ((d = none ∨ (∃ a b, d = some a ∧ t = some b ∧ a < b)
        ∨ h = HealthStatus.Unreachable) →
      decide_model_update (healthToBranch h) (d.map mkNaive) (t.map mkNaive)
        = Except.ok "deploy_new_model") := by
  cases h <;> rcases d with _ | a <;> rcases t with _ | b <;>
    simp [decide_model_update, healthToBranch, mkNaive, pyGt]

/-- Concrete instance of C3: Unreachable health forces a deploy. -/
theorem c3_skip_only_when_fresh_witness :
    decide_model_update (healthToBranch HealthStatus.Unreachable)
        ((none : Option Int).map mkNaive) ((none : Option Int).map mkNaive)
      = Except.ok "deploy_new_model" :=
  (c3_skip_only_when_fresh HealthStatus.Unreachable none none).2 (Or.inr (Or.inr rfl))

/-- Claim C7: over the spec's input domain (a health status and two
optional naive timestamps) the evaluator is total and never raises — it
always terminates with an `ok` result. -/
theorem c7_evaluator_total_on_naive (h : HealthStatus) (d t : Option Int) :
    ∃ r, decide_model_update (healthToBranch h) (d.map mkNaive) (t.map mkNaive)
      = Except.ok r := by
  cases h <;> rcases d with _ | a <;> rcases t with _ | b <;>
    simp [decide_model_update, healthToBranch, mkNaive, pyGt]
  by_cases hab : a < b <;> simp [hab]

/-- Claim C8: every exception raised while probing health or fetching
either timestamp is caught at the collaborator boundary — the probe maps it
to the `"deploy_new_model"` branch (Unreachable status), and both fetchers
map it, as well as non-200 responses and unparseable or missing
`creation_time` fields, to an absent timestamp. -/
theorem c8_collaborators_never_propagate :
    (∀ e : String,
        get_branch_by_api_status (Except.error e) = PyXcom.str "deploy_new_model") ∧
    (∀ e : String, probeHealth (Except.error e) = HealthStatus.Unreachable) ∧
    (∀ st : Nat, st ≠ 200 →
        get_branch_by_api_status (Except.ok st) = PyXcom.str "deploy_new_model") ∧
    (∀ e : String, get_deployed_model_creation_time (Except.error e) = none) ∧
    (∀ (st : Nat) (body : Option String), st ≠ 200 →
        get_deployed_model_creation_time (Except.ok (st, body)) = none) ∧
    (∀ s : String, strptimeNaiveFmt s = none →
        get_deployed_model_creation_time (Except.ok (200, some s)) = none) ∧
    (get_deployed_model_creation_time (Except.ok (200, none)) = none) ∧
    (∀ e : String, get_latest_trained_model_creation_time (Except.error e) = none) := by
  refine ⟨fun e => rfl, fun e => rfl, fun st hst => ?_, fun e => rfl,
    fun st body hst => ?_, fun s hs => ?_, rfl, fun e => rfl⟩
  · simp [get_branch_by_api_status, hst]
  · simp [get_deployed_model_creation_time, hst]
  · simp [get_deployed_model_creation_time, hs]

/-- Concrete instance of C8: a 404 on the metadata endpoint yields an
absent deployed timestamp. -/
theorem c8_collaborators_never_propagate_witness :
    get_deployed_model_creation_time (Except.ok (404, none)) = none :=
  c8_collaborators_never_propagate.2.2.2.2.1 404 none (by decide)

/-- Helper: a successful parse under the naive format string carries no
timezone. -/
theorem strptime_naive_fmt_is_naive (s : String) (d : PyDatetime)
    (h : strptimeNaiveFmt s = some d) : d.tzoff = none := by
  unfold strptimeNaiveFmt at h
  rcases hp : parseDtFields s with _ | f <;> rw [hp] at h
  · exact absurd h (by simp)
  · by_cases hv : validFields f <;> simp [hv] at h
    exact h.symm ▸ rfl

/-- Helper: anything `get_deployed_model_creation_time` returns is naive. -/
theorem deployed_fetch_is_naive (r : Except String (Nat × Option String))
    (d : PyDatetime) (h : get_deployed_model_creation_time r = some d) :
    d.tzoff = none := by
  unfold get_deployed_model_creation_time at h
  rcases r with e | ⟨st, body⟩
  · exact absurd h (by simp)
  · by_cases hst : st = 200
    · rcases body with _ | s <;> simp [hst] at h
      exact strptime_naive_fmt_is_naive s d h
    · simp [hst] at h

/-- Helper: anything `get_latest_trained_model_creation_time` returns is
naive. -/
theorem trained_fetch_is_naive (r : Except String PyDatetime)
    (t : PyDatetime) (h : get_latest_trained_model_creation_time r = some t) :
    t.tzoff = none := by
  unfold get_latest_trained_model_creation_time at h
  rcases r with e | d
  · exact absurd h (by simp)
  · simp at h
    exact h ▸ rfl

/-- Helper: the evaluator returns `ok` whenever both optional timestamps
are naive when present. -/
theorem decide_ok_of_naive (api : PyXcom) (deployed trained : Option PyDatetime)
    (hd : ∀ d, deployed = some d → d.tzoff = none)
    (ht : ∀ t, trained = some t → t.tzoff = none) :
    ∃ r, decide_model_update api deployed trained = Except.ok r := by
  unfold decide_model_update
  split
  · exact ⟨_, rfl⟩
  · cases deployed with
    | none => exact ⟨_, rfl⟩
    | some d =>
      cases trained with
      | none => exact ⟨_, rfl⟩
      | some t =>
        simp [pyGt, hd d rfl, ht t rfl]
        by_cases hlt : d.ticks < t.ticks <;> simp [hlt]

/-- Claim C9: whatever the two fetchers return, a present deployed
timestamp (parsed with the naive format string) and a present trained
timestamp (its tzinfo stripped) are both timezone-naive, so the strict
greater-than comparison in the evaluator never mixes naive and aware
values and the evaluator never fails on that account. -/
theorem c9_fetched_timestamps_are_naive :
    (∀ (r : Except String (Nat × Option String)) (d : PyDatetime),
        get_deployed_model_creation_time r = some d → d.tzoff = none) ∧
    (∀ (r : Except String PyDatetime) (t : PyDatetime),
        get_latest_trained_model_creation_time r = some t → t.tzoff = none) ∧
    (∀ (rd : Except String (Nat × Option String)) (rt : Except String PyDatetime)
        (d t : PyDatetime),
        get_deployed_model_creation_time rd = some d →
        get_latest_trained_model_creation_time rt = some t →
        ∃ b, pyGt t d = Except.ok b) ∧
    (∀ (api : PyXcom) (rd : Except String (Nat × Option String))
        (rt : Except String PyDatetime),
        ∃ r, decide_model_update api (get_deployed_model_creation_time rd)
          (get_latest_trained_model_creation_time rt) = Except.ok r) := by
  refine ⟨deployed_fetch_is_naive, trained_fetch_is_naive,
    fun rd rt d t hd ht => ?_, fun api rd rt => ?_⟩
  · exact ⟨decide (d.ticks < t.ticks), by
      simp [pyGt, deployed_fetch_is_naive rd d hd, trained_fetch_is_naive rt t ht]⟩
  · exact decide_ok_of_naive api _ _
      (fun d hd => deployed_fetch_is_naive rd d hd)
      (fun t ht => trained_fetch_is_naive rt t ht)

/-- Concrete instance of C9: a parsed metadata timestamp and a
registry timestamp with its offset stripped compare without error. -/
theorem c9_fetched_timestamps_are_naive_witness :
    ∃ b, pyGt (mkNaive 0) ⟨1735689600000000, none⟩ = Except.ok b :=
  c9_fetched_timestamps_are_naive.2.2.1
    (Except.ok (200, some "2025-01-01T00:00:00.000000Z"))
    (Except.ok ⟨0, some 3600000000⟩)
    ⟨1735689600000000, none⟩ (mkNaive 0) (by decide) rfl

/-- Claim C10: over the spec's input domain the evaluator's result is
always exactly one of the two task-id strings `"deploy_new_model"` and
`"skip_deployment"`. -/
theorem c10_result_is_one_of_two_task_ids (h : HealthStatus) (d t : Option Int) :
    decide_model_update (healthToBranch h) (d.map mkNaive) (t.map mkNaive)
        = Except.ok "deploy_new_model" ∨
      decide_model_update (healthToBranch h) (d.map mkNaive) (t.map mkNaive)
        = Except.ok "skip_deployment" := by
  cases h <;> rcases d with _ | a <;> rcases t with _ | b <;>
    simp [decide_model_update, healthToBranch, mkNaive, pyGt]
  by_cases hab : a < b
  · simp [hab]
  · simp [hab]
    omega

end ContinuousDeployment
